import Mathlib

/-!
Verification development for the XBRL financial-statement extraction pipeline
(`financialreader`): a shallow embedding of the GAAP taxonomy mapper
(`gaap_taxonomy.py`) and the XBRL parser pipeline (`xbrl_parser.py`),
with theorems settling the specified properties.

Conventions of the embedding:
* Python floats are modelled as rationals (`ℚ`); the numeric claims proved
  here concern equality, bounds and presence/absence, which the float
  implementation realises exactly for the values involved.
* Python dicts are modelled as association lists in insertion order
  (Python ≥ 3.7 dicts preserve insertion order).
* `datetime.strptime(s, "%Y-%m-%d")` is modelled by `strptimeYMD`, which
  accepts exactly the strings CPython accepts for that format: a 4-digit
  year, a 1-2 digit month in 1..12, a 1-2 digit day valid for the month
  (leap years included), joined by single dashes.
* Logging calls that report structural failures are modelled as an explicit
  `log_errors` component of the result, so that "empty result plus reason"
  is visible in the embedding.
-/

namespace FinancialReader

/-! ### String and sorting primitives

The Lean core versions of `String.toLower`, `String.splitOn`,
`String.toNat?` and `List.mergeSort` are compiled with well-founded
recursion and do not reduce in the kernel, so the embedding uses
structurally recursive equivalents defined here. -/

/-- Python `str.lower()` (the concept keys are ASCII). -/
def pyLower (s : String) : String :=
  ⟨s.data.map Char.toLower⟩

/-- `s.split("-")` on the character list, preserving empty segments. -/
def splitOnDash : List Char → List (List Char)
  | [] => [[]]
  | c :: cs =>
    if c = '-' then [] :: splitOnDash cs
    else
      match splitOnDash cs with
      | [] => [[c]]
      | seg :: rest => (c :: seg) :: rest

/-- Decimal value of a digit string. -/
def digitsToNat (cs : List Char) : Nat :=
  cs.foldl (fun n c => n * 10 + (c.toNat - 48)) 0

/-- `int(s)` on a nonempty all-digit string, else `none`. -/
def parseNatDigits (cs : List Char) : Option Nat :=
  if cs ≠ [] ∧ cs.all Char.isDigit then some (digitsToNat cs) else none

/-- Lexicographic (code-point) string comparison, Python `a <= b`. -/
def charListLe : List Char → List Char → Bool
  | [], _ => true
  | _ :: _, [] => false
  | a :: as, b :: bs =>
    if a < b then true
    else if b < a then false
    else charListLe as bs

/-- Python string `<=`, on the underlying character lists. -/
def strLe (a b : String) : Bool :=
  charListLe a.data b.data

/-- Insert `a` into `l` before the first element `x` with `le x a`; the
insertion step of a stable descending insertion sort. -/
def insertTop {α : Type} (le : α → α → Bool) (a : α) : List α → List α
  | [] => [a]
  | x :: xs => if le x a then a :: x :: xs else x :: insertTop le a xs

/-- Stable insertion sort placing `le`-larger elements first: the embedding
of Python's stable `list.sort(key=..., reverse=True)`, with
`le x y = (key x <= key y)`.  Equal-key elements keep their original
relative order, as Python guarantees. -/
def sortTop {α : Type} (le : α → α → Bool) : List α → List α
  | [] => []
  | x :: xs => insertTop le x (sortTop le xs)

/-- First-occurrence deduplication (Python set-union iteration made
deterministic in first-appearance order). -/
def dedupFirst (l : List String) : List String :=
  l.foldl (fun acc x => if acc.contains x then acc else acc ++ [x]) []

/-- `StatementType` enum from `gaap_taxonomy.py`. -/
inductive StatementType where
  | income_statement
  | balance_sheet
  | cash_flow
  | other
deriving DecidableEq, Repr

/-- `GAAPTag` dataclass from `gaap_taxonomy.py`. -/
structure GAAPTag where
  tag : String
  statement_type : StatementType
  description : String
  unit_type : String := "USD"
  alternative_tags : List String := []
  required : Bool := true
deriving DecidableEq, Repr

/-- The concept → `GAAPTag` mapping built by
`GAAPTaxonomyMapper._build_tag_mapping`, in Python dict insertion order
(income statement, then balance sheet, then cash flow). -/
def tag_mapping : List (String × GAAPTag) :=
  [ ("revenue",
     { tag := "RevenueFromContractWithCustomerExcludingAssessedTax",
       statement_type := .income_statement,
       description := "Total revenue/net sales",
       alternative_tags := ["Revenues", "SalesRevenueNet"] }),
    ("cost_of_goods_sold",
     { tag := "CostOfGoodsAndServicesSold",
       statement_type := .income_statement,
       description := "Direct costs of producing goods/services",
       alternative_tags := ["CostOfRevenue", "CostOfGoodsSold"] }),
    ("gross_profit",
     { tag := "GrossProfit",
       statement_type := .income_statement,
       description := "Revenue minus cost of goods sold",
       required := false }),
    ("research_and_development",
     { tag := "ResearchAndDevelopmentExpense",
       statement_type := .income_statement,
       description := "R and D expenses",
       alternative_tags := ["ResearchAndDevelopmentExpenseExcludingAcquiredInProcessCost"] }),
    ("selling_general_administrative",
     { tag := "SellingGeneralAndAdministrativeExpense",
       statement_type := .income_statement,
       description := "SGA expenses",
       alternative_tags := ["SellingAndMarketingExpense", "GeneralAndAdministrativeExpense"] }),
    ("operating_income",
     { tag := "OperatingIncomeLoss",
       statement_type := .income_statement,
       description := "Income from operations" }),
    ("net_income",
     { tag := "NetIncomeLoss",
       statement_type := .income_statement,
       description := "Net income/loss" }),
    ("earnings_per_share_basic",
     { tag := "EarningsPerShareBasic",
       statement_type := .income_statement,
       description := "Basic earnings per share",
       unit_type := "USD/shares" }),
    ("earnings_per_share_diluted",
     { tag := "EarningsPerShareDiluted",
       statement_type := .income_statement,
       description := "Diluted earnings per share",
       unit_type := "USD/shares" }),
    ("interest_expense",
     { tag := "InterestExpense",
       statement_type := .income_statement,
       description := "Interest expense",
       required := false }),
    ("income_tax_expense",
     { tag := "IncomeTaxExpenseBenefit",
       statement_type := .income_statement,
       description := "Income tax expense/benefit",
       required := false }),
    ("cash_and_equivalents",
     { tag := "CashAndCashEquivalentsAtCarryingValue",
       statement_type := .balance_sheet,
       description := "Cash and cash equivalents",
       alternative_tags := ["CashCashEquivalentsRestrictedCashAndRestrictedCashEquivalents"] }),
    ("accounts_receivable",
     { tag := "AccountsReceivableNetCurrent",
       statement_type := .balance_sheet,
       description := "Net accounts receivable",
       required := false }),
    ("inventory",
     { tag := "InventoryNet",
       statement_type := .balance_sheet,
       description := "Inventory",
       alternative_tags := ["Inventory"],
       required := false }),
    ("current_assets",
     { tag := "AssetsCurrent",
       statement_type := .balance_sheet,
       description := "Total current assets" }),
    ("property_plant_equipment",
     { tag := "PropertyPlantAndEquipmentNet",
       statement_type := .balance_sheet,
       description := "Net property, plant, equipment" }),
    ("total_assets",
     { tag := "Assets",
       statement_type := .balance_sheet,
       description := "Total assets" }),
    ("accounts_payable",
     { tag := "AccountsPayableCurrent",
       statement_type := .balance_sheet,
       description := "Current accounts payable",
       required := false }),
    ("current_liabilities",
     { tag := "LiabilitiesCurrent",
       statement_type := .balance_sheet,
       description := "Total current liabilities" }),
    ("long_term_debt",
     { tag := "LongTermDebt",
       statement_type := .balance_sheet,
       description := "Long-term debt",
       alternative_tags := ["LongTermDebtNoncurrent"] }),
    ("total_liabilities",
     { tag := "Liabilities",
       statement_type := .balance_sheet,
       description := "Total liabilities" }),
    ("shareholders_equity",
     { tag := "StockholdersEquity",
       statement_type := .balance_sheet,
       description := "Total shareholders equity",
       alternative_tags :=
         ["StockholdersEquityIncludingPortionAttributableToNoncontrollingInterest"] }),
    ("retained_earnings",
     { tag := "RetainedEarningsAccumulatedDeficit",
       statement_type := .balance_sheet,
       description := "Retained earnings",
       required := false }),
    ("common_shares_outstanding",
     { tag := "CommonStockSharesOutstanding",
       statement_type := .balance_sheet,
       description := "Common shares outstanding",
       unit_type := "shares",
       required := false }),
    ("operating_cash_flow",
     { tag := "NetCashProvidedByUsedInOperatingActivities",
       statement_type := .cash_flow,
       description := "Net cash from operating activities" }),
    ("investing_cash_flow",
     { tag := "NetCashProvidedByUsedInInvestingActivities",
       statement_type := .cash_flow,
       description := "Net cash from investing activities" }),
    ("financing_cash_flow",
     { tag := "NetCashProvidedByUsedInFinancingActivities",
       statement_type := .cash_flow,
       description := "Net cash from financing activities" }),
    ("capital_expenditures",
     { tag := "PaymentsToAcquirePropertyPlantAndEquipment",
       statement_type := .cash_flow,
       description := "Capital expenditures (CapEx)",
       alternative_tags := ["CapitalExpenditures"] }),
    ("dividends_paid",
     { tag := "PaymentsOfDividendsCommonStock",
       statement_type := .cash_flow,
       description := "Dividends paid",
       alternative_tags := ["PaymentsOfDividends"],
       required := false }),
    ("stock_repurchases",
     { tag := "PaymentsForRepurchaseOfCommonStock",
       statement_type := .cash_flow,
       description := "Stock repurchases/buybacks",
       required := false }),
    ("depreciation_amortization",
     { tag := "DepreciationDepletionAndAmortization",
       statement_type := .cash_flow,
       description := "Depreciation and amortization",
       alternative_tags := ["Depreciation", "DepreciationAndAmortization"],
       required := false }) ]

/-- `GAAPTaxonomyMapper.get_gaap_tag`: dict lookup after lower-casing. -/
def get_gaap_tag (concept : String) : Option GAAPTag :=
  tag_mapping.lookup (pyLower concept)

/-- `GAAPTaxonomyMapper.get_all_concepts`: the mapping keys in order. -/
def get_all_concepts : List String :=
  tag_mapping.map Prod.fst

/-- `GAAPTaxonomyMapper.get_required_concepts`: keys whose tag is required. -/
def get_required_concepts : List String :=
  (tag_mapping.filter (fun p => p.2.required)).map Prod.fst

/-- `GAAPTaxonomyMapper.find_best_tag`: primary tag if available, else the
first available alternative in declared order, else `none`. -/
def find_best_tag (available_tags : List String) (concept : String) : Option String :=
  match get_gaap_tag concept with
  | none => none
  | some gaap_tag =>
    if gaap_tag.tag ∈ available_tags then
      some gaap_tag.tag
    else
      gaap_tag.alternative_tags.find? (fun alt_tag => available_tags.contains alt_tag)

/-! ### Date parsing (`datetime.strptime(s, "%Y-%m-%d")`) -/

/-- Gregorian leap-year rule, as used by `datetime` for day-of-month checks. -/
def isLeap (y : Nat) : Bool :=
  (y % 4 == 0 && y % 100 != 0) || y % 400 == 0

/-- Number of days in a month, matching `datetime`'s validation. -/
def daysInMonth (y m : Nat) : Nat :=
  if m == 2 then (if isLeap y then 29 else 28)
  else if m == 4 || m == 6 || m == 9 || m == 11 then 30
  else 31

/-- The result of a successful `strptime(_, "%Y-%m-%d")` call: the fields of
the parsed `datetime` that the pipeline reads. -/
structure SimpleDate where
  year : Nat
  month : Nat
  day : Nat
deriving DecidableEq, Repr

/-- `datetime.strptime(s, "%Y-%m-%d")`, returning `none` where CPython raises
`ValueError`: the format requires a 4-digit year, a 1-2 digit month whose
value is 1..12, a 1-2 digit day valid for that month and year, separated by
single dashes, with no leftover input. -/
def strptimeYMD (s : String) : Option SimpleDate :=
  match splitOnDash s.data with
  | [ys, ms, ds] =>
    match parseNatDigits ys, parseNatDigits ms, parseNatDigits ds with
    | some y, some m, some d =>
      if ys.length == 4 && decide (1 ≤ ms.length) && ms.length ≤ 2
          && decide (1 ≤ ds.length) && ds.length ≤ 2
          && decide (1 ≤ m) && m ≤ 12 && decide (1 ≤ d)
          && d ≤ daysInMonth y m && decide (1 ≤ y) then
        some ⟨y, m, d⟩
      else none
    | _, _, _ => none
  | _ => none

/-! ### Data model (`xbrl_parser.py` dataclasses and raw payload shape) -/

/-- `FinancialDataPoint` dataclass. Values are modelled as `ℚ`. -/
structure FinancialDataPoint where
  concept : String
  gaap_tag : String
  value : ℚ
  unit : String
  end_date : String
  form : String
  frame : Option String := none
  filed_date : Option String := none
deriving DecidableEq, Repr

/-- One entry of a tag's unit-keyed data-point array in the SEC company-facts
payload: the `{val, end, form, filed, frame}` keys the parser reads, each
optional as in the raw JSON. -/
structure RawPoint where
  val : Option ℚ := none
  endDate : Option String := none
  form : Option String := none
  filed : Option String := none
  frame : Option String := none
deriving DecidableEq, Repr

/-- The value of one tag in the `us-gaap` facts dict: its `units` dict,
mapping a unit name to an array of raw data points. -/
structure TagUnits where
  units : List (String × List RawPoint)
deriving DecidableEq, Repr

/-- A parsed SEC company-facts payload, as handed to the parser:
`{entityName, facts: {"us-gaap": {...}}}` with optional keys. -/
structure CompanyFacts where
  entityName : Option String := none
  facts : List (String × List (String × TagUnits)) := []
deriving DecidableEq, Repr

/-! ### Fact Extractor (`_extract_statements_by_period`, collection loop) -/

/-- The per-data-point body of the collection loop in
`_extract_statements_by_period` (lines 118-145): filter by form and end date,
then build a `FinancialDataPoint`.  `cutoff_year = current_year - years` is
passed in as an `Int`, as Python subtraction does not truncate.  A missing
`form` key defaults to `""` and a missing `val` key defaults to `0`, as with
`data_point.get('form', '')` and `float(data_point.get('val', 0))`. -/
def pointToRecord (concept best_tag unit_type : String) (cutoff_year : Int)
    (data_point : RawPoint) : Option FinancialDataPoint :=
  if data_point.endDate = none ∨ data_point.endDate = some "" then none
  else if ¬ (data_point.form.getD "" = "10-K"
      ∨ data_point.form.getD "" = "10-Q") then none
  else
    match strptimeYMD (data_point.endDate.getD "") with
    | none => none
    | some parsed =>
      if (parsed.year : Int) < cutoff_year then none
      else
        some { concept := concept
               gaap_tag := best_tag
               value := data_point.val.getD 0
               unit := unit_type
               end_date := data_point.endDate.getD ""
               form := data_point.form.getD ""
               frame := data_point.frame
               filed_date := data_point.filed }

/-- The data-point collection phase of `_extract_statements_by_period`
(lines 107-145): for each taxonomy concept, resolve the best available tag,
then walk its unit-partitioned data points, emitting one record per
surviving point. -/
def extractPoints (us_gaap_facts : List (String × TagUnits))
    (current_year : Nat) (years : Int) : List FinancialDataPoint :=
  let cutoff_year : Int := (current_year : Int) - years
  get_all_concepts.flatMap (fun concept =>
    let available_tags := us_gaap_facts.map Prod.fst
    match find_best_tag available_tags concept with
    | none => []
    | some best_tag =>
      match us_gaap_facts.lookup best_tag with
      | none => []
      | some tag_data =>
        tag_data.units.flatMap (fun unit_entry =>
          unit_entry.2.filterMap
            (pointToRecord concept best_tag unit_entry.1 cutoff_year)))

/-! ### Period Reconciler (`_extract_statements_by_period`, grouping and
per-year filing selection) -/

/-- The fiscal-year assignment of the grouping loop (lines 148-164): parse
the record's end date; on success, if the month is ≥ 9 or the form is
`10-K`, the fiscal year is the end date's calendar year; otherwise (parse
failure, or early-month `10-Q`) the record joins no group. -/
def assignFiscalYear (dp : FinancialDataPoint) : Option Nat :=
  match strptimeYMD dp.end_date with
  | none => none
  | some end_date =>
    if end_date.month ≥ 9 ∨ dp.form = "10-K" then some end_date.year
    else none

/-- Append `dp` to the group keyed `y`, creating the group at the end if new
(Python dict insertion-order semantics of `statements_by_period`). -/
def insertGrouped (groups : List (Nat × List FinancialDataPoint)) (y : Nat)
    (dp : FinancialDataPoint) : List (Nat × List FinancialDataPoint) :=
  match groups with
  | [] => [(y, [dp])]
  | (k, l) :: rest =>
    if k = y then (k, l ++ [dp]) :: rest
    else (k, l) :: insertGrouped rest y dp

/-- One iteration of the grouping loop: records with no fiscal-year
assignment are dropped, the rest join their year's group. -/
def groupStep (groups : List (Nat × List FinancialDataPoint))
    (dp : FinancialDataPoint) : List (Nat × List FinancialDataPoint) :=
  match assignFiscalYear dp with
  | none => groups
  | some y => insertGrouped groups y dp

/-- The grouping loop of `_extract_statements_by_period` (lines 148-164):
fold the records into `statements_by_period`. -/
def groupByFiscalYear (dps : List FinancialDataPoint) :
    List (Nat × List FinancialDataPoint) :=
  dps.foldl groupStep []

/-- The form-preference step (lines 169-173): keep the `10-K` records; if
there are none, fall back to the `10-Q` records. -/
def preferredFormPoints (data_points : List FinancialDataPoint) :
    List FinancialDataPoint :=
  let annual_data_points := data_points.filter (fun dp => dp.form == "10-K")
  if annual_data_points.isEmpty then
    data_points.filter (fun dp => dp.form == "10-Q")
  else annual_data_points

/-- Sort key used for filing recency: `x.filed_date or ''`. -/
def filedKey (dp : FinancialDataPoint) : String :=
  dp.filed_date.getD ""

/-- The per-year filing selection (lines 169-189): prefer `10-K` over
`10-Q`, stably sort the preferred records by `filed_date or ''` descending
(Python `list.sort(key=..., reverse=True)`), take the first record's
`filed_date` as the primary filing date, and keep exactly the records with
that filed date.  Returns `[]` where the Python loop `continue`s. -/
def selectYearPoints (data_points : List FinancialDataPoint) :
    List FinancialDataPoint :=
  let annual_data_points := preferredFormPoints data_points
  match sortTop (fun a b => strLe (filedKey a) (filedKey b)) annual_data_points with
  | [] => []
  | top :: rest =>
    (top :: rest).filter (fun dp => dp.filed_date == top.filed_date)

/-! ### Statement Assembler (`_create_financial_statement`) -/

/-- `FinancialStatement` dataclass; the three concept → value dicts are
association lists in insertion order. -/
structure FinancialStatement where
  company_cik : String
  company_name : String
  period_end : String
  fiscal_year : Nat
  form_type : String
  income_statement : List (String × ℚ)
  balance_sheet : List (String × ℚ)
  cash_flow : List (String × ℚ)
  raw_data_points : List FinancialDataPoint
  data_quality_score : ℚ
deriving DecidableEq, Repr

/-- Python dict assignment `d[k] = v`: overwrite in place if the key exists,
else append. -/
def dictInsert (d : List (String × ℚ)) (k : String) (v : ℚ) :
    List (String × ℚ) :=
  match d with
  | [] => [(k, v)]
  | (k0, v0) :: rest =>
    if k0 = k then (k0, v) :: rest
    else (k0, v0) :: dictInsert rest k v

/-- `_normalize_value`: the identity (values arrive in absolute units). -/
def normalize_value (value : ℚ) (unit : String) : ℚ :=
  value

/-- Intermediate state of the assembly loop in
`_create_financial_statement`: the three statement dicts plus the set of
concepts found (modelled as a dedup-preserving list). -/
structure AssemblyState where
  income_statement : List (String × ℚ) := []
  balance_sheet : List (String × ℚ) := []
  cash_flow : List (String × ℚ) := []
  found_concepts : List String := []
deriving Repr

/-- One iteration of the assembly loop (lines 216-236): skip concepts with
no taxonomy entry, record the concept as found, and place the normalized
value in the dict of its statement type. -/
def assembleStep (st : AssemblyState) (dp : FinancialDataPoint) :
    AssemblyState :=
  let normalized_value := normalize_value dp.value dp.unit
  match get_gaap_tag dp.concept with
  | none => st
  | some gaap_tag_info =>
    let found := if st.found_concepts.contains dp.concept then
        st.found_concepts
      else st.found_concepts ++ [dp.concept]
    match gaap_tag_info.statement_type with
    | .income_statement =>
      { st with income_statement := dictInsert st.income_statement dp.concept normalized_value
                found_concepts := found }
    | .balance_sheet =>
      { st with balance_sheet := dictInsert st.balance_sheet dp.concept normalized_value
                found_concepts := found }
    | .cash_flow =>
      { st with cash_flow := dictInsert st.cash_flow dp.concept normalized_value
                found_concepts := found }
    | .other => { st with found_concepts := found }

/-- `max(set(end_dates), key=end_dates.count)`: a most frequent end date.
The embedding iterates first occurrences in order and keeps the first
strict maximum of the count, as Python's `max` keeps the first maximal
element (set iteration order is made deterministic here; no claim depends
on which most-common date is chosen). -/
def mostCommonEndDate (end_dates : List String) : String :=
  ((dedupFirst end_dates).foldl (fun best s =>
    match best with
    | none => some s
    | some b =>
      if (end_dates.count s) > (end_dates.count b) then some s else some b)
    none).getD ""

/-- `_create_financial_statement` (lines 198-262): `none` for an empty
record set, else the assembled statement with its data-quality score
`|required concepts found| / |required concepts|`. -/
def create_financial_statement (cik company_name : String) (fiscal_year : Nat)
    (data_points : List FinancialDataPoint) : Option FinancialStatement :=
  if data_points.isEmpty then none
  else
    let expected_concepts := get_required_concepts
    let st := data_points.foldl assembleStep {}
    let required_found :=
      (expected_concepts.filter (fun c => st.found_concepts.contains c)).length
    let data_quality_score : ℚ :=
      if expected_concepts.isEmpty then 0
      else (required_found : ℚ) / (expected_concepts.length : ℚ)
    let period_end := mostCommonEndDate (data_points.map (fun dp => dp.end_date))
    let form_type := (data_points.head?.map (fun dp => dp.form)).getD ""
    some { company_cik := cik
           company_name := company_name
           period_end := period_end
           fiscal_year := fiscal_year
           form_type := form_type
           income_statement := st.income_statement
           balance_sheet := st.balance_sheet
           cash_flow := st.cash_flow
           raw_data_points := data_points
           data_quality_score := data_quality_score }

/-! ### Full pipeline (`_extract_statements_by_period`,
`extract_company_financials`) -/

/-- `_extract_statements_by_period` (lines 96-195): collect the data points,
group them by fiscal year, select one filing per year, assemble statements,
and sort them by fiscal year descending (stable). -/
def extract_statements_by_period (cik company_name : String)
    (us_gaap_facts : List (String × TagUnits)) (current_year : Nat)
    (years : Int) : List FinancialStatement :=
  let all_data_points := extractPoints us_gaap_facts current_year years
  let statements_by_period := groupByFiscalYear all_data_points
  let financial_statements := statements_by_period.filterMap
    (fun group =>
      create_financial_statement cik company_name group.1
        (selectYearPoints group.2))
  sortTop (fun a b => decide (a.fiscal_year ≤ b.fiscal_year)) financial_statements

/-- Result of `extract_company_financials`: the returned statement list plus
the error messages the method logs (`self.logger.error(...)`), modelling how
a failure reason is surfaced alongside an empty result. -/
structure ExtractResult where
  statements : List FinancialStatement
  log_errors : List String
deriving Repr

/-- `extract_company_financials` (lines 57-94), taking the already-fetched
company-facts payload (the HTTP client is an external collaborator): read
`entityName` (default `"Unknown"`), read `facts["us-gaap"]`; if that dict is
absent or empty, log an explicit error and return no statements; otherwise
run the period extraction. -/
def extract_company_financials (cik : String) (company_facts : CompanyFacts)
    (current_year : Nat) (years : Int) : ExtractResult :=
  let company_name := company_facts.entityName.getD "Unknown"
  let us_gaap_facts := (company_facts.facts.lookup "us-gaap").getD []
  if us_gaap_facts.isEmpty then
    { statements := []
      log_errors := ["No US-GAAP facts found for CIK " ++ cik] }
  else
    { statements :=
        extract_statements_by_period cik company_name us_gaap_facts
          current_year years
      log_errors := [] }

/-! ### Tabular Projector (`to_dataframe`) -/

/-- One row of the projected table: the fixed metadata columns plus one cell
per concept column (`none` is the pandas `None`/missing marker). -/
structure DataFrameRow where
  company_cik : String
  company_name : String
  fiscal_year : Nat
  period_end : String
  form_type : String
  data_quality_score : ℚ
  cells : List (String × Option ℚ)
deriving DecidableEq, Repr

/-- Python `or` on two optional floats, as in
`a.get(c) or b.get(c) or d.get(c)`: `None` and `0.0` are both falsy, so a
stored zero falls through to the next operand. -/
def pyOrFloat (a b : Option ℚ) : Option ℚ :=
  match a with
  | none => b
  | some x => if x = 0 then b else some x

/-- The concept-cell computation of `to_dataframe` (lines 298-301):
`stmt.income_statement.get(c) or stmt.balance_sheet.get(c) or
stmt.cash_flow.get(c)`. -/
def conceptCell (stmt : FinancialStatement) (concept : String) : Option ℚ :=
  pyOrFloat (stmt.income_statement.lookup concept)
    (pyOrFloat (stmt.balance_sheet.lookup concept)
      (stmt.cash_flow.lookup concept))

/-- The union of concepts over all statements (`all_concepts`), iterated in
first-appearance order (Python uses a set; only the column set, not its
order, matters to any consumer or claim). -/
def allConcepts (financial_statements : List FinancialStatement) :
    List String :=
  dedupFirst (financial_statements.flatMap (fun stmt =>
    stmt.income_statement.map Prod.fst
      ++ stmt.balance_sheet.map Prod.fst
      ++ stmt.cash_flow.map Prod.fst))

/-- `to_dataframe` (lines 270-312): one row per statement with a cell for
every concept column, sorted by fiscal year descending (stable). -/
def to_dataframe (financial_statements : List FinancialStatement) :
    List DataFrameRow :=
  let all_concepts := allConcepts financial_statements
  let rows := financial_statements.map (fun stmt =>
    { company_cik := stmt.company_cik
      company_name := stmt.company_name
      fiscal_year := stmt.fiscal_year
      period_end := stmt.period_end
      form_type := stmt.form_type
      data_quality_score := stmt.data_quality_score
      cells := all_concepts.map (fun c => (c, conceptCell stmt c)) })
  sortTop (fun a b => decide (a.fiscal_year ≤ b.fiscal_year)) rows

/-! ### Concrete inputs used by witnesses and counterexamples -/

/-- A September-end `10-K` record (fiscal-year heuristic applies). -/
def dpSep10K : FinancialDataPoint :=
  { concept := "revenue", gaap_tag := "Revenues", value := 100, unit := "USD",
    end_date := "2024-09-30", form := "10-K",
    filed_date := some "2024-11-01" }

/-- A March-end `10-Q` record (dropped by the fiscal-year heuristic). -/
def dpMar10Q : FinancialDataPoint :=
  { concept := "revenue", gaap_tag := "Revenues", value := 50, unit := "USD",
    end_date := "2024-03-31", form := "10-Q",
    filed_date := some "2024-05-01" }

/-- A payload holding, for one fiscal year, a `10-Q` record and two `10-K`
records of the same period filed on different dates. -/
def factsMixedFilings : List (String × TagUnits) :=
  [("Revenues", ⟨[("USD",
    [ { val := some 100, endDate := some "2024-09-30", form := some "10-Q",
        filed := some "2024-10-15" },
      { val := some 105, endDate := some "2024-09-30", form := some "10-K",
        filed := some "2024-11-01" },
      { val := some 104, endDate := some "2024-09-30", form := some "10-K",
        filed := some "2023-12-01" } ])]⟩)]

/-- The single statement the pipeline produces from `factsMixedFilings`:
only the most recently filed `10-K` record survives. -/
def stmtMixedFilings : FinancialStatement :=
  { company_cik := "1", company_name := "A", period_end := "2024-09-30",
    fiscal_year := 2024, form_type := "10-K",
    income_statement := [("revenue", 105)], balance_sheet := [],
    cash_flow := [],
    raw_data_points :=
      [{ concept := "revenue", gaap_tag := "Revenues", value := 105,
         unit := "USD", end_date := "2024-09-30", form := "10-K",
         frame := none, filed_date := some "2024-11-01" }],
    data_quality_score := 1/20 }

/-- A payload whose only data point ends in 2030, after the
`current_year = 2025` used in the counterexample. -/
def factsFutureEnd : List (String × TagUnits) :=
  [("Revenues", ⟨[("USD",
    [ { val := some 100, endDate := some "2030-09-30", form := some "10-K",
        filed := some "2030-11-01" } ])]⟩)]

/-- The record the extractor emits for `factsFutureEnd`. -/
def dpFutureEnd : FinancialDataPoint :=
  { concept := "revenue", gaap_tag := "Revenues", value := 100,
    unit := "USD", end_date := "2030-09-30", form := "10-K",
    filed_date := some "2030-11-01" }

/-- A raw data point with the `val` key missing. -/
def rpValMissing : RawPoint :=
  { endDate := some "2024-09-30", form := some "10-K",
    filed := some "2024-11-01" }

/-- A payload whose only data point has no `val` key. -/
def factsValMissing : List (String × TagUnits) :=
  [("Revenues", ⟨[("USD", [rpValMissing])]⟩)]

/-- The same payload with `val` present and equal to `0`. -/
def factsValZero : List (String × TagUnits) :=
  [("Revenues", ⟨[("USD", [{ rpValMissing with val := some 0 }])]⟩)]

/-- A statement reporting `revenue = 0.0` in its income statement. -/
def stmtRevenueZero : FinancialStatement :=
  { company_cik := "1", company_name := "A", period_end := "2024-09-30",
    fiscal_year := 2024, form_type := "10-K",
    income_statement := [("revenue", 0)], balance_sheet := [],
    cash_flow := [], raw_data_points := [], data_quality_score := 0 }

/-- A statement that does not report `revenue` at all. -/
def stmtRevenueAbsent : FinancialStatement :=
  { company_cik := "1", company_name := "A", period_end := "2023-09-30",
    fiscal_year := 2023, form_type := "10-K",
    income_statement := [], balance_sheet := [],
    cash_flow := [], raw_data_points := [], data_quality_score := 0 }

/-! ### Helper lemmas -/

theorem mem_insertTop {α : Type} {le : α → α → Bool} {a y : α} :
    ∀ (l : List α), y ∈ insertTop le a l ↔ y = a ∨ y ∈ l
  | [] => by simp [insertTop]
  | x :: xs => by
    simp only [insertTop]
    split
    · simp only [List.mem_cons]
    · rw [List.mem_cons, mem_insertTop xs, List.mem_cons]
      tauto

theorem mem_sortTop {α : Type} {le : α → α → Bool} {y : α} :
    ∀ (l : List α), y ∈ sortTop le l ↔ y ∈ l
  | [] => Iff.rfl
  | x :: xs => by
    simp only [sortTop]
    rw [mem_insertTop, mem_sortTop xs, List.mem_cons]

theorem pairwise_insertTop {α : Type} {le : α → α → Bool}
    (htrans : ∀ a b c, le a b = true → le b c = true → le a c = true)
    (htotal : ∀ a b, le a b = false → le b a = true) {a : α} :
    ∀ {l : List α}, l.Pairwise (fun p q => le q p = true) →
      (insertTop le a l).Pairwise (fun p q => le q p = true)
  | [], _ => by simp [insertTop]
  | x :: xs, h => by
    simp only [insertTop]
    rcases List.pairwise_cons.mp h with ⟨hx, hxs⟩
    split
    · next hle =>
      refine List.pairwise_cons.mpr ⟨?_, h⟩
      intro y hy
      rcases List.mem_cons.mp hy with rfl | hmem
      · exact hle
      · exact htrans y x a (hx y hmem) hle
    · next hle =>
      rw [Bool.not_eq_true] at hle
      refine List.pairwise_cons.mpr ⟨?_, pairwise_insertTop htrans htotal hxs⟩
      intro y hy
      rcases (mem_insertTop _).mp hy with rfl | hmem
      · exact htotal x y hle
      · exact hx y hmem

theorem pairwise_sortTop {α : Type} {le : α → α → Bool}
    (htrans : ∀ a b c, le a b = true → le b c = true → le a c = true)
    (htotal : ∀ a b, le a b = false → le b a = true) :
    ∀ (l : List α), (sortTop le l).Pairwise (fun p q => le q p = true)
  | [] => List.Pairwise.nil
  | x :: xs => pairwise_insertTop htrans htotal (pairwise_sortTop htrans htotal xs)

theorem charListLe_trans :
    ∀ {a b c : List Char}, charListLe a b = true → charListLe b c = true →
      charListLe a c = true
  | [], _, _, _, _ => rfl
  | _ :: _, [], _, h1, _ => by simp [charListLe] at h1
  | _ :: _, _ :: _, [], _, h2 => by simp [charListLe] at h2
  | a :: as, b :: bs, c :: cs, h1, h2 => by
    simp only [charListLe] at h1 h2 ⊢
    rcases lt_trichotomy a b with hab | hab | hab
    · rcases lt_trichotomy b c with hbc | hbc | hbc
      · rw [if_pos (lt_trans hab hbc)]
      · subst hbc
        rw [if_pos hab]
      · rw [if_neg (asymm hbc), if_pos hbc] at h2
        exact absurd h2 (by simp)
    · subst hab
      rcases lt_trichotomy a c with hac | hac | hac
      · rw [if_pos hac]
      · subst hac
        rw [if_neg (lt_irrefl a), if_neg (lt_irrefl a)] at h1 h2 ⊢
        exact charListLe_trans h1 h2
      · rw [if_neg (asymm hac), if_pos hac] at h2
        exact absurd h2 (by simp)
    · rw [if_neg (asymm hab), if_pos hab] at h1
      exact absurd h1 (by simp)

theorem charListLe_total :
    ∀ (a b : List Char), charListLe a b = false → charListLe b a = true
  | [], _, h => by simp [charListLe] at h
  | _ :: _, [], _ => rfl
  | a :: as, b :: bs, h => by
    simp only [charListLe] at h ⊢
    rcases lt_trichotomy a b with hab | hab | hab
    · rw [if_pos hab] at h
      exact absurd h (by simp)
    · subst hab
      rw [if_neg (lt_irrefl a)] at h ⊢
      rw [if_neg (lt_irrefl a)] at h ⊢
      exact charListLe_total as bs h
    · rw [if_pos hab]

theorem charListLe_refl : ∀ (a : List Char), charListLe a a = true
  | [] => rfl
  | a :: as => by
    simp only [charListLe]
    rw [if_neg (lt_irrefl a), if_neg (lt_irrefl a)]
    exact charListLe_refl as

theorem strLe_refl (a : String) : strLe a a = true :=
  charListLe_refl a.data

theorem strLe_trans {a b c : String} (h1 : strLe a b = true)
    (h2 : strLe b c = true) : strLe a c = true :=
  charListLe_trans h1 h2

theorem strLe_total (a b : String) (h : strLe a b = false) : strLe b a = true :=
  charListLe_total a.data b.data h

theorem mem_of_mem_preferredFormPoints {dp : FinancialDataPoint}
    {group : List FinancialDataPoint} (h : dp ∈ preferredFormPoints group) :
    dp ∈ group := by
  simp only [preferredFormPoints] at h
  split at h <;> exact (List.mem_filter.mp h).1

theorem mem_of_mem_selectYearPoints {dp : FinancialDataPoint}
    {group : List FinancialDataPoint} (h : dp ∈ selectYearPoints group) :
    dp ∈ preferredFormPoints group := by
  simp only [selectYearPoints] at h
  split at h
  · simp at h
  · next top rest heq =>
    have h2 := (List.mem_filter.mp h).1
    rw [← heq] at h2
    exact (mem_sortTop _).mp h2

theorem insertGrouped_sound :
    ∀ (groups : List (Nat × List FinancialDataPoint)) (y : Nat)
      (dp : FinancialDataPoint),
      (∀ p ∈ groups, ∀ x ∈ p.2, assignFiscalYear x = some p.1) →
      assignFiscalYear dp = some y →
      ∀ p ∈ insertGrouped groups y dp, ∀ x ∈ p.2, assignFiscalYear x = some p.1
  | [], y, dp, _, hdp => by
    intro p hp x hx
    simp only [insertGrouped, List.mem_singleton] at hp
    subst hp
    simp only [List.mem_singleton] at hx
    subst hx
    exact hdp
  | (k0, l0) :: rest, y, dp, h, hdp => by
    intro p hp x hx
    simp only [insertGrouped] at hp
    split at hp
    · next hk =>
      rcases List.mem_cons.mp hp with rfl | htail
      · rcases List.mem_append.mp hx with hx1 | hx2
        · exact h (k0, l0) (List.mem_cons_self _ _) x hx1
        · simp only [List.mem_singleton] at hx2
          subst hx2
          rw [hdp, hk]
      · exact h p (List.mem_cons_of_mem _ htail) x hx
    · next hk =>
      rcases List.mem_cons.mp hp with rfl | htail
      · exact h (k0, l0) (List.mem_cons_self _ _) x hx
      · exact insertGrouped_sound rest y dp
          (fun q hq => h q (List.mem_cons_of_mem _ hq)) hdp p htail x hx

theorem groupFold_sound :
    ∀ (dps : List FinancialDataPoint)
      (acc : List (Nat × List FinancialDataPoint)),
      (∀ p ∈ acc, ∀ x ∈ p.2, assignFiscalYear x = some p.1) →
      ∀ p ∈ dps.foldl groupStep acc, ∀ x ∈ p.2, assignFiscalYear x = some p.1
  | [], _, h => h
  | dp :: dps, acc, h => by
    simp only [List.foldl_cons]
    refine groupFold_sound dps (groupStep acc dp) ?_
    unfold groupStep
    split
    · exact h
    · next y hy => exact insertGrouped_sound acc y dp h hy

theorem groupByFiscalYear_sound (dps : List FinancialDataPoint) :
    ∀ p ∈ groupByFiscalYear dps, ∀ x ∈ p.2, assignFiscalYear x = some p.1 :=
  groupFold_sound dps [] (by simp)

theorem insertGrouped_mem_self :
    ∀ (groups : List (Nat × List FinancialDataPoint)) (y : Nat)
      (dp : FinancialDataPoint),
      ∃ g, (y, g) ∈ insertGrouped groups y dp ∧ dp ∈ g
  | [], y, dp => ⟨[dp], by simp [insertGrouped]⟩
  | (k0, l0) :: rest, y, dp => by
    simp only [insertGrouped]
    split
    · next hk =>
      subst hk
      exact ⟨l0 ++ [dp], List.mem_cons_self _ _, by simp⟩
    · next hk =>
      obtain ⟨g, hg, hdp⟩ := insertGrouped_mem_self rest y dp
      exact ⟨g, List.mem_cons_of_mem _ hg, hdp⟩

theorem insertGrouped_mem_mono :
    ∀ (groups : List (Nat × List FinancialDataPoint)) (y : Nat)
      (dp x : FinancialDataPoint) (k : Nat) (g : List FinancialDataPoint),
      (k, g) ∈ groups → x ∈ g →
      ∃ g2, (k, g2) ∈ insertGrouped groups y dp ∧ x ∈ g2
  | [], _, _, _, _, _, h, _ => absurd h (List.not_mem_nil _)
  | (k0, l0) :: rest, y, dp, x, k, g, hg, hx => by
    simp only [insertGrouped]
    split
    · next hk =>
      rcases List.mem_cons.mp hg with heq | htail
      · rw [Prod.mk.injEq] at heq
        obtain ⟨rfl, rfl⟩ := heq
        exact ⟨g ++ [dp], List.mem_cons_self _ _, List.mem_append_left _ hx⟩
      · exact ⟨g, List.mem_cons_of_mem _ htail, hx⟩
    · next hk =>
      rcases List.mem_cons.mp hg with heq | htail
      · rw [Prod.mk.injEq] at heq
        obtain ⟨rfl, rfl⟩ := heq
        exact ⟨g, List.mem_cons_self _ _, hx⟩
      · obtain ⟨g2, h1, h2⟩ := insertGrouped_mem_mono rest y dp x k g htail hx
        exact ⟨g2, List.mem_cons_of_mem _ h1, h2⟩

theorem groupStep_mem_mono (acc : List (Nat × List FinancialDataPoint))
    (dp x : FinancialDataPoint) (k : Nat) (g : List FinancialDataPoint)
    (hg : (k, g) ∈ acc) (hx : x ∈ g) :
    ∃ g2, (k, g2) ∈ groupStep acc dp ∧ x ∈ g2 := by
  unfold groupStep
  split
  · exact ⟨g, hg, hx⟩
  · next y _ => exact insertGrouped_mem_mono acc y dp x k g hg hx

theorem groupFold_mem_mono :
    ∀ (dps : List FinancialDataPoint)
      (acc : List (Nat × List FinancialDataPoint)) (k : Nat)
      (g : List FinancialDataPoint) (x : FinancialDataPoint),
      (k, g) ∈ acc → x ∈ g →
      ∃ g2, (k, g2) ∈ dps.foldl groupStep acc ∧ x ∈ g2
  | [], _, _, g, _, hg, hx => ⟨g, hg, hx⟩
  | dp :: dps, acc, k, g, x, hg, hx => by
    simp only [List.foldl_cons]
    obtain ⟨g2, h1, h2⟩ := groupStep_mem_mono acc dp x k g hg hx
    exact groupFold_mem_mono dps (groupStep acc dp) k g2 x h1 h2

theorem groupFold_mem :
    ∀ (dps : List FinancialDataPoint)
      (acc : List (Nat × List FinancialDataPoint)) (dp : FinancialDataPoint)
      (y : Nat), dp ∈ dps → assignFiscalYear dp = some y →
      ∃ g, (y, g) ∈ dps.foldl groupStep acc ∧ dp ∈ g
  | [], _, _, _, hmem, _ => absurd hmem (List.not_mem_nil _)
  | dp0 :: dps, acc, dp, y, hmem, hy => by
    rcases List.mem_cons.mp hmem with rfl | htail
    · simp only [List.foldl_cons]
      have step : ∃ g, (y, g) ∈ groupStep acc dp ∧ dp ∈ g := by
        unfold groupStep
        rw [hy]
        exact insertGrouped_mem_self acc y dp
      obtain ⟨g, hg, hdp⟩ := step
      exact groupFold_mem_mono dps (groupStep acc dp) y g dp hg hdp
    · simp only [List.foldl_cons]
      exact groupFold_mem dps (groupStep acc dp0) dp y htail hy

theorem groupByFiscalYear_complete {dps : List FinancialDataPoint}
    {dp : FinancialDataPoint} {y : Nat} (hmem : dp ∈ dps)
    (hy : assignFiscalYear dp = some y) :
    ∃ g, (y, g) ∈ groupByFiscalYear dps ∧ dp ∈ g :=
  groupFold_mem dps [] dp y hmem hy

theorem assembleStep_found (st : AssemblyState) (dp : FinancialDataPoint)
    (c : String) :
    c ∈ (assembleStep st dp).found_concepts ↔
      c ∈ st.found_concepts
        ∨ (dp.concept = c ∧ get_gaap_tag dp.concept ≠ none) := by
  cases hg : get_gaap_tag dp.concept with
  | none =>
    have hsame : (assembleStep st dp).found_concepts = st.found_concepts := by
      unfold assembleStep
      rw [hg]
    rw [hsame]
    constructor
    · exact Or.inl
    · rintro (hc | ⟨_, hne⟩)
      · exact hc
      · exact absurd rfl hne
  | some g =>
    have hfound : (assembleStep st dp).found_concepts =
        if st.found_concepts.contains dp.concept then st.found_concepts
        else st.found_concepts ++ [dp.concept] := by
      unfold assembleStep
      rw [hg]
      obtain ⟨tg, sty, ds, ut, alts, rq⟩ := g
      cases sty <;> rfl
    rw [hfound]
    split
    · next hin =>
      constructor
      · exact Or.inl
      · rintro (hc | ⟨rfl, _⟩)
        · exact hc
        · simpa using hin
    · next hin =>
      rw [List.mem_append, List.mem_singleton]
      constructor
      · rintro (hc | rfl)
        · exact Or.inl hc
        · exact Or.inr ⟨rfl, by simp [hg]⟩
      · rintro (hc | ⟨rfl, _⟩)
        · exact Or.inl hc
        · exact Or.inr rfl

theorem assembleFold_found :
    ∀ (dps : List FinancialDataPoint) (st : AssemblyState) (c : String),
      c ∈ (dps.foldl assembleStep st).found_concepts ↔
        c ∈ st.found_concepts
          ∨ ∃ dp ∈ dps, dp.concept = c ∧ get_gaap_tag dp.concept ≠ none
  | [], st, c => by simp
  | dp :: dps, st, c => by
    simp only [List.foldl_cons]
    rw [assembleFold_found dps (assembleStep st dp) c, assembleStep_found]
    constructor
    · rintro ((hc | hdp) | ⟨dp2, hdp2, hc⟩)
      · exact Or.inl hc
      · exact Or.inr ⟨dp, List.mem_cons_self _ _, hdp⟩
      · exact Or.inr ⟨dp2, List.mem_cons_of_mem _ hdp2, hc⟩
    · rintro (hc | ⟨dp2, hdp2, hc⟩)
      · exact Or.inl (Or.inl hc)
      · rcases List.mem_cons.mp hdp2 with rfl | htail
        · exact Or.inl (Or.inr hc)
        · exact Or.inr ⟨dp2, htail, hc⟩

theorem required_concepts_resolvable :
    ∀ c ∈ get_required_concepts, get_gaap_tag c ≠ none := by
  decide

theorem create_financial_statement_fields {cik name : String} {fy : Nat}
    {dps : List FinancialDataPoint} {stmt : FinancialStatement}
    (h : create_financial_statement cik name fy dps = some stmt) :
    stmt.raw_data_points = dps ∧ stmt.fiscal_year = fy ∧ dps ≠ [] := by
  unfold create_financial_statement at h
  split at h
  · exact absurd h (by simp)
  · next hne =>
    simp only [Option.some.injEq] at h
    subst h
    refine ⟨rfl, rfl, ?_⟩
    simpa using hne

theorem mem_extract_decomp {cik name : String}
    {facts : List (String × TagUnits)} {cy : Nat} {years : Int}
    {stmt : FinancialStatement}
    (h : stmt ∈ extract_statements_by_period cik name facts cy years) :
    ∃ y group, (y, group) ∈ groupByFiscalYear (extractPoints facts cy years) ∧
      create_financial_statement cik name y (selectYearPoints group)
        = some stmt := by
  simp only [extract_statements_by_period] at h
  rw [mem_sortTop, List.mem_filterMap] at h
  obtain ⟨a, ha, hcreate⟩ := h
  exact ⟨a.1, a.2, ha, hcreate⟩

/-! ### Theorems for the claims -/

/-- Claim C3: for every payload in which the `facts["us-gaap"]` dict is
absent or empty, `extract_company_financials` returns no statements together
with an explicit logged reason — never a silent empty list. -/
theorem extract_empty_gaap_surfaces_reason (cik : String)
    (company_facts : CompanyFacts) (current_year : Nat) (years : Int)
    (h : ((company_facts.facts.lookup "us-gaap").getD []).isEmpty = true) :
    (extract_company_financials cik company_facts current_year years).statements = []
    ∧ (extract_company_financials cik company_facts current_year years).log_errors
        = ["No US-GAAP facts found for CIK " ++ cik]
    ∧ (extract_company_financials cik company_facts current_year years).log_errors ≠ [] := by
  unfold extract_company_financials
  rw [if_pos h]
  exact ⟨rfl, rfl, by simp⟩

theorem extract_empty_gaap_surfaces_reason_witness :
    ((({ facts := [("dei", [])] } : CompanyFacts).facts.lookup "us-gaap").getD []).isEmpty = true
    ∧ (extract_company_financials "320193" { facts := [("dei", [])] } 2025 10).statements = []
    ∧ (extract_company_financials "320193" { facts := [("dei", [])] } 2025 10).log_errors
        = ["No US-GAAP facts found for CIK 320193"] := by
  refine ⟨by decide, ?_, ?_⟩
  · exact (extract_empty_gaap_surfaces_reason "320193" { facts := [("dei", [])] } 2025 10 (by decide)).1
  · exact (extract_empty_gaap_surfaces_reason "320193" { facts := [("dei", [])] } 2025 10 (by decide)).2.1

/-- Claim C7: for every concept known to the taxonomy, `find_best_tag`
returns the primary tag when available, else the first available alternative
in declared order, else `none`; the result is a function of the taxonomy and
the available-tag list only. -/
theorem find_best_tag_resolution (available_tags : List String)
    (concept : String) (g : GAAPTag) (h : get_gaap_tag concept = some g) :
    (g.tag ∈ available_tags →
       find_best_tag available_tags concept = some g.tag)
    ∧ (g.tag ∉ available_tags → ∀ t,
        (find_best_tag available_tags concept = some t ↔
          t ∈ available_tags ∧ ∃ pre post,
            g.alternative_tags = pre ++ t :: post ∧ ∀ u ∈ pre, u ∉ available_tags))
    ∧ (g.tag ∉ available_tags →
        (∀ t ∈ g.alternative_tags, t ∉ available_tags) →
        find_best_tag available_tags concept = none) := by
  have hfbt : find_best_tag available_tags concept =
      if g.tag ∈ available_tags then some g.tag
      else g.alternative_tags.find? (fun alt_tag => available_tags.contains alt_tag) := by
    unfold find_best_tag
    rw [h]
  rw [hfbt]
  refine ⟨fun hmem => if_pos hmem, fun hn t => ?_, fun hn hall => ?_⟩
  · rw [if_neg hn, List.find?_eq_some]
    constructor
    · rintro ⟨hpt, pre, post, heq, hpre⟩
      refine ⟨by simpa using hpt, pre, post, heq, fun u hu => ?_⟩
      have := hpre u hu
      simpa using this
    · rintro ⟨hpt, pre, post, heq, hpre⟩
      exact ⟨by simpa using hpt, pre, post, heq, fun u hu => by simpa using hpre u hu⟩
  · rw [if_neg hn, List.find?_eq_none]
    intro x hx
    simpa using hall x hx

theorem find_best_tag_resolution_witness :
    get_gaap_tag "revenue" = some
      { tag := "RevenueFromContractWithCustomerExcludingAssessedTax",
        statement_type := .income_statement,
        description := "Total revenue/net sales",
        alternative_tags := ["Revenues", "SalesRevenueNet"] }
    ∧ "RevenueFromContractWithCustomerExcludingAssessedTax" ∉ (["Revenues"] : List String)
    ∧ find_best_tag ["Revenues"] "revenue" = some "Revenues" := by
  refine ⟨by decide, by decide, ?_⟩
  have h := (find_best_tag_resolution ["Revenues"] "revenue"
      { tag := "RevenueFromContractWithCustomerExcludingAssessedTax",
        statement_type := .income_statement,
        description := "Total revenue/net sales",
        alternative_tags := ["Revenues", "SalesRevenueNet"] } (by decide)).2.1
  exact ((h (by decide) "Revenues").mpr
    ⟨by decide, [], ["SalesRevenueNet"], rfl, by simp⟩)

/-- Claim C5: a fiscal-year group containing at least one `10-K` record is
built from `10-K` records only — every selected record is a `10-K` and the
preferred set is exactly the `10-K` records; only a group with no `10-K`
record falls back to its `10-Q` records. -/
theorem reconciler_prefers_10K (group : List FinancialDataPoint) :
    ((∃ dp ∈ group, dp.form = "10-K") →
       preferredFormPoints group = group.filter (fun dp => dp.form == "10-K")
       ∧ ∀ dp ∈ selectYearPoints group, dp.form = "10-K")
    ∧ ((∀ dp ∈ group, dp.form ≠ "10-K") →
       preferredFormPoints group = group.filter (fun dp => dp.form == "10-Q")) := by
  constructor
  · rintro ⟨dp0, hdp0, hform⟩
    have hne : (group.filter (fun dp => dp.form == "10-K")).isEmpty = false := by
      rw [List.isEmpty_eq_false_iff_exists_mem]
      exact ⟨dp0, List.mem_filter.mpr ⟨hdp0, by simp [hform]⟩⟩
    have hpref : preferredFormPoints group
        = group.filter (fun dp => dp.form == "10-K") := by
      simp only [preferredFormPoints]
      rw [hne]
      simp
    refine ⟨hpref, fun dp hdp => ?_⟩
    have h1 := mem_of_mem_selectYearPoints hdp
    rw [hpref] at h1
    have := (List.mem_filter.mp h1).2
    simpa using this
  · intro hnone
    have hall : (group.filter (fun dp => dp.form == "10-K")).isEmpty = true := by
      rw [List.isEmpty_iff]
      rw [List.filter_eq_nil_iff]
      intro dp hdp
      simpa using hnone dp hdp
    simp only [preferredFormPoints]
    rw [hall]
    simp

/-- Claim C6: a record whose end date parses with month ≥ 9, or whose form
is `10-K`, is assigned the fiscal year equal to its end date's calendar
year and grouped under it; the assignment depends only on the record's
end date and form, so re-running it on the same records gives the same
years. -/
theorem reconciler_fiscal_year_assignment (dps : List FinancialDataPoint)
    (dp : FinancialDataPoint) (d : SimpleDate) (hmem : dp ∈ dps)
    (hparse : strptimeYMD dp.end_date = some d)
    (hcond : 9 ≤ d.month ∨ dp.form = "10-K") :
    assignFiscalYear dp = some d.year
    ∧ (∃ g, (d.year, g) ∈ groupByFiscalYear dps ∧ dp ∈ g)
    ∧ (∀ dp2 : FinancialDataPoint, dp2.end_date = dp.end_date →
        dp2.form = dp.form → assignFiscalYear dp2 = assignFiscalYear dp) := by
  have hassign : assignFiscalYear dp = some d.year := by
    unfold assignFiscalYear
    rw [hparse]
    exact if_pos hcond
  refine ⟨hassign, groupByFiscalYear_complete hmem hassign, ?_⟩
  intro dp2 he hf
  unfold assignFiscalYear
  rw [he, hf]

theorem reconciler_fiscal_year_assignment_witness :
    dpSep10K ∈ [dpMar10Q, dpSep10K]
    ∧ strptimeYMD dpSep10K.end_date = some ⟨2024, 9, 30⟩
    ∧ assignFiscalYear dpSep10K = some 2024
    ∧ (∃ g, (2024, g) ∈ groupByFiscalYear [dpMar10Q, dpSep10K]
        ∧ dpSep10K ∈ g) := by
  have h := reconciler_fiscal_year_assignment [dpMar10Q, dpSep10K] dpSep10K
    ⟨2024, 9, 30⟩ (by decide) (by decide) (Or.inl (by decide))
  exact ⟨by decide, by decide, h.1, h.2.1⟩

/-- Claim C9: a `10-Q` record whose end-date month is before September is
assigned to no fiscal-year group, and therefore appears in the
`raw_data_points` of no statement emitted by the pipeline. -/
theorem early_10Q_in_no_statement :
    (∀ (dp : FinancialDataPoint) (d : SimpleDate), dp.form = "10-Q" →
       strptimeYMD dp.end_date = some d → d.month < 9 →
       assignFiscalYear dp = none)
    ∧ (∀ (cik name : String) (facts : List (String × TagUnits))
        (cy : Nat) (years : Int) (stmt : FinancialStatement)
        (dp : FinancialDataPoint) (d : SimpleDate),
        stmt ∈ extract_statements_by_period cik name facts cy years →
        dp ∈ stmt.raw_data_points →
        dp.form = "10-Q" → strptimeYMD dp.end_date = some d →
        ¬ d.month < 9) := by
  have part1 : ∀ (dp : FinancialDataPoint) (d : SimpleDate),
      dp.form = "10-Q" → strptimeYMD dp.end_date = some d → d.month < 9 →
      assignFiscalYear dp = none := by
    intro dp d hform hparse hmonth
    unfold assignFiscalYear
    rw [hparse]
    refine if_neg ?_
    rintro (h9 | hK)
    · omega
    · rw [hform] at hK
      exact absurd hK (by decide)
  refine ⟨part1, ?_⟩
  intro cik name facts cy years stmt dp d hstmt hdp hform hparse hmonth
  obtain ⟨y, group, hg, hcreate⟩ := mem_extract_decomp hstmt
  have hraw := (create_financial_statement_fields hcreate).1
  rw [hraw] at hdp
  have hgrp : dp ∈ group :=
    mem_of_mem_preferredFormPoints (mem_of_mem_selectYearPoints hdp)
  have hsound := groupByFiscalYear_sound _ (y, group) hg dp hgrp
  rw [part1 dp d hform hparse hmonth] at hsound
  exact absurd hsound (by simp)

theorem early_10Q_in_no_statement_witness :
    dpMar10Q.form = "10-Q"
    ∧ strptimeYMD dpMar10Q.end_date = some ⟨2024, 3, 31⟩
    ∧ (3 : Nat) < 9
    ∧ assignFiscalYear dpMar10Q = none :=
  ⟨by decide, by decide, by decide,
    early_10Q_in_no_statement.1 dpMar10Q ⟨2024, 3, 31⟩ (by decide) (by decide)
      (by decide)⟩

theorem reconciler_prefers_10K_witness :
    (∃ dp ∈ [dpMar10Q, dpSep10K], dp.form = "10-K")
    ∧ preferredFormPoints [dpMar10Q, dpSep10K] = [dpSep10K]
    ∧ selectYearPoints [dpMar10Q, dpSep10K] = [dpSep10K] := by
  refine ⟨⟨dpSep10K, by decide, by decide⟩, ?_, by decide⟩
  have h := (reconciler_prefers_10K [dpMar10Q, dpSep10K]).1
    ⟨dpSep10K, by decide, by decide⟩
  rw [h.1]
  decide

/-- Claim C4: every emitted statement's raw data points all carry one
identical filed date; that filed date is attained by a preferred-form
record of the statement's fiscal-year group and is maximal (in string
order, a missing date counting as the empty string) among the
preferred-form records' filed dates; every preferred-form record sharing
it is kept and all other records are excluded. -/
theorem statement_single_filing (cik name : String)
    (facts : List (String × TagUnits)) (cy : Nat) (years : Int)
    (stmt : FinancialStatement)
    (h : stmt ∈ extract_statements_by_period cik name facts cy years) :
    ∃ group f,
      (stmt.fiscal_year, group)
          ∈ groupByFiscalYear (extractPoints facts cy years)
      ∧ stmt.raw_data_points = selectYearPoints group
      ∧ (∀ dp ∈ stmt.raw_data_points, dp.filed_date = f)
      ∧ (∃ dp ∈ preferredFormPoints group, dp.filed_date = f)
      ∧ (∀ dp ∈ preferredFormPoints group,
          strLe (filedKey dp) (f.getD "") = true)
      ∧ (∀ dp ∈ preferredFormPoints group, dp.filed_date = f →
          dp ∈ selectYearPoints group) := by
  obtain ⟨y, group, hg, hcreate⟩ := mem_extract_decomp h
  obtain ⟨hraw, hfy, hne⟩ := create_financial_statement_fields hcreate
  rw [← hfy] at hg
  cases hs : sortTop (fun a b => strLe (filedKey a) (filedKey b))
      (preferredFormPoints group) with
  | nil =>
    exfalso
    apply hne
    simp only [selectYearPoints]
    rw [hs]
  | cons top rest =>
    have hsel : selectYearPoints group
        = (top :: rest).filter (fun dp => dp.filed_date == top.filed_date) := by
      simp only [selectYearPoints]
      rw [hs]
    have hmem_sorted : ∀ dp, dp ∈ preferredFormPoints group ↔ dp ∈ top :: rest := by
      intro dp
      rw [← hs, mem_sortTop]
    have htop : top ∈ preferredFormPoints group :=
      (hmem_sorted top).mpr (List.mem_cons_self _ _)
    have hpw := @pairwise_sortTop FinancialDataPoint
      (fun a b => strLe (filedKey a) (filedKey b))
      (fun a b c h1 h2 => strLe_trans h1 h2)
      (fun a b hab => strLe_total _ _ hab)
      (preferredFormPoints group)
    rw [hs] at hpw
    have hrest := (List.pairwise_cons.mp hpw).1
    refine ⟨group, top.filed_date, hg, hraw, ?_, ⟨top, htop, rfl⟩, ?_, ?_⟩
    · intro dp hdp
      rw [hraw, hsel] at hdp
      have := (List.mem_filter.mp hdp).2
      simpa using this
    · intro dp hdp
      rcases List.mem_cons.mp ((hmem_sorted dp).mp hdp) with rfl | hmem
      · exact strLe_refl _
      · exact hrest dp hmem
    · intro dp hdp heq
      rw [hsel]
      refine List.mem_filter.mpr ⟨(hmem_sorted dp).mp hdp, ?_⟩
      simp [heq]

theorem statement_single_filing_witness :
    extract_statements_by_period "1" "A" factsMixedFilings 2025 10
        = [stmtMixedFilings]
    ∧ ∃ group f,
      (stmtMixedFilings.fiscal_year, group)
          ∈ groupByFiscalYear (extractPoints factsMixedFilings 2025 10)
      ∧ stmtMixedFilings.raw_data_points = selectYearPoints group
      ∧ (∀ dp ∈ stmtMixedFilings.raw_data_points, dp.filed_date = f)
      ∧ (∃ dp ∈ preferredFormPoints group, dp.filed_date = f)
      ∧ (∀ dp ∈ preferredFormPoints group,
          strLe (filedKey dp) (f.getD "") = true)
      ∧ (∀ dp ∈ preferredFormPoints group, dp.filed_date = f →
          dp ∈ selectYearPoints group) :=
  ⟨rfl,
    statement_single_filing "1" "A" factsMixedFilings 2025 10 stmtMixedFilings
      (by rw [show extract_statements_by_period "1" "A" factsMixedFilings 2025 10
                = [stmtMixedFilings] from rfl]
          exact List.mem_singleton.mpr rfl)⟩

/-- Claim C8: an emitted statement's `data_quality_score` is the number of
required concepts appearing among its data points divided by the total
number of required concepts; hence it lies in `[0, 1]` and equals `1`
exactly when every required concept is present. -/
theorem quality_score_required_fraction (cik name : String) (fy : Nat)
    (dps : List FinancialDataPoint) (stmt : FinancialStatement)
    (h : create_financial_statement cik name fy dps = some stmt) :
    stmt.data_quality_score =
      ((get_required_concepts.filter
          (fun c => dps.any (fun dp => dp.concept == c))).length : ℚ)
        / (get_required_concepts.length : ℚ)
    ∧ 0 ≤ stmt.data_quality_score
    ∧ stmt.data_quality_score ≤ 1
    ∧ ((∀ c ∈ get_required_concepts, ∃ dp ∈ dps, dp.concept = c) →
        stmt.data_quality_score = 1) := by
  have hfilter : get_required_concepts.filter
        (fun c => (dps.foldl assembleStep {}).found_concepts.contains c)
      = get_required_concepts.filter
        (fun c => dps.any (fun dp => dp.concept == c)) := by
    refine List.filter_congr ?_
    intro c hc
    rw [Bool.eq_iff_iff]
    constructor
    · intro hcont
      have hmem : c ∈ (dps.foldl assembleStep {}).found_concepts := by
        simpa using hcont
      rcases (assembleFold_found dps {} c).mp hmem with hnil | ⟨dp, hdp, hcc, _⟩
      · simp [AssemblyState.found_concepts] at hnil
      · simp only [List.any_eq_true]
        exact ⟨dp, hdp, by simp [hcc]⟩
    · intro hany
      obtain ⟨dp, hdp, hcc⟩ := List.any_eq_true.mp hany
      have hcc2 : dp.concept = c := by simpa using hcc
      have hmem : c ∈ (dps.foldl assembleStep {}).found_concepts :=
        (assembleFold_found dps {} c).mpr
          (Or.inr ⟨dp, hdp, hcc2, by rw [hcc2]
                                     exact required_concepts_resolvable c hc⟩)
      simpa using hmem
  have hscore : stmt.data_quality_score =
      ((get_required_concepts.filter
          (fun c => dps.any (fun dp => dp.concept == c))).length : ℚ)
        / (get_required_concepts.length : ℚ) := by
    unfold create_financial_statement at h
    split at h
    · exact absurd h (by simp)
    · simp only [Option.some.injEq] at h
      subst h
      simp only []
      rw [show get_required_concepts.isEmpty = false from rfl]
      rw [hfilter]
      simp
  have hlen : (0 : ℚ) < (get_required_concepts.length : ℚ) := by
    rw [show get_required_concepts.length = 20 from rfl]
    norm_num
  have hle : (get_required_concepts.filter
      (fun c => dps.any (fun dp => dp.concept == c))).length
        ≤ get_required_concepts.length :=
    List.length_filter_le _ _
  refine ⟨hscore, ?_, ?_, ?_⟩
  · rw [hscore]
    positivity
  · rw [hscore]
    rw [div_le_one hlen]
    exact_mod_cast hle
  · intro hall
    rw [hscore]
    have hfull : get_required_concepts.filter
        (fun c => dps.any (fun dp => dp.concept == c)) = get_required_concepts := by
      rw [List.filter_eq_self]
      intro c hc
      obtain ⟨dp, hdp, hcc⟩ := hall c hc
      simp only [List.any_eq_true]
      exact ⟨dp, hdp, by simp [hcc]⟩
    rw [hfull]
    rw [div_self (ne_of_gt hlen)]

theorem quality_score_required_fraction_witness :
    create_financial_statement "1" "A" 2024 [dpSep10K]
      = some { company_cik := "1", company_name := "A",
               period_end := "2024-09-30", fiscal_year := 2024,
               form_type := "10-K",
               income_statement := [("revenue", 100)], balance_sheet := [],
               cash_flow := [], raw_data_points := [dpSep10K],
               data_quality_score := 1/20 }
    ∧ (0 : ℚ) ≤ (1 : ℚ)/20 ∧ (1 : ℚ)/20 ≤ 1 := by
  have h := quality_score_required_fraction "1" "A" 2024 [dpSep10K]
    { company_cik := "1", company_name := "A", period_end := "2024-09-30",
      fiscal_year := 2024, form_type := "10-K",
      income_statement := [("revenue", 100)], balance_sheet := [],
      cash_flow := [], raw_data_points := [dpSep10K],
      data_quality_score := 1/20 } rfl
  exact ⟨rfl, h.2.1, h.2.2.1⟩

/-- Claim C2 (amended): the Fact Extractor emits a record only for data
points whose form is `10-K` or `10-Q` and whose end date parses with year
at least `current_year - years`; the filter imposes no upper bound on the
end year. -/
theorem extractor_form_and_year_filter (facts : List (String × TagUnits))
    (current_year : Nat) (years : Int) (dp : FinancialDataPoint)
    (h : dp ∈ extractPoints facts current_year years) :
    (dp.form = "10-K" ∨ dp.form = "10-Q")
    ∧ ∃ d, strptimeYMD dp.end_date = some d
        ∧ (current_year : Int) - years ≤ (d.year : Int) := by
  simp only [extractPoints] at h
  rw [List.mem_flatMap] at h
  obtain ⟨concept, _, h⟩ := h
  cases hbt : find_best_tag (facts.map Prod.fst) concept with
  | none => simp only [hbt] at h; simp at h
  | some best_tag =>
    simp only [hbt] at h
    cases hlk : facts.lookup best_tag with
    | none => simp only [hlk] at h; simp at h
    | some tag_data =>
      simp only [hlk] at h
      rw [List.mem_flatMap] at h
      obtain ⟨unit_entry, _, h⟩ := h
      rw [List.mem_filterMap] at h
      obtain ⟨p, _, hrec⟩ := h
      unfold pointToRecord at hrec
      split at hrec
      · exact absurd hrec (by simp)
      · next hform =>
        split at hrec
        · exact absurd hrec (by simp)
        · next hform2 =>
          split at hrec
          · exact absurd hrec (by simp)
          · next parsed hparse =>
            split at hrec
            · exact absurd hrec (by simp)
            · next hyear =>
              simp only [Option.some.injEq] at hrec
              subst hrec
              rw [not_not] at hform2
              refine ⟨hform2, parsed, hparse, ?_⟩
              omega

theorem extractor_form_and_year_filter_witness :
    extractPoints factsFutureEnd 2025 10 = [dpFutureEnd]
    ∧ (dpFutureEnd.form = "10-K" ∨ dpFutureEnd.form = "10-Q")
    ∧ (∃ d, strptimeYMD dpFutureEnd.end_date = some d
        ∧ (2025 : Int) - 10 ≤ (d.year : Int)) := by
  refine ⟨rfl, ?_, ?_⟩
  · exact (extractor_form_and_year_filter factsFutureEnd 2025 10 dpFutureEnd
      (by rw [show extractPoints factsFutureEnd 2025 10 = [dpFutureEnd] from rfl]
          exact List.mem_singleton.mpr rfl)).1
  · exact (extractor_form_and_year_filter factsFutureEnd 2025 10 dpFutureEnd
      (by rw [show extractPoints factsFutureEnd 2025 10 = [dpFutureEnd] from rfl]
          exact List.mem_singleton.mpr rfl)).2

/-- Claim C2 counterexample: with `current_year = 2025` and `years = 10`
the extractor emits the `factsFutureEnd` record whose end year is 2030,
strictly greater than `current_year`; end dates after `current_year` are
not skipped, so the closed-interval claim fails as stated. -/
theorem extractor_no_upper_bound_counterexample :
    extractPoints factsFutureEnd 2025 10 = [dpFutureEnd]
    ∧ strptimeYMD dpFutureEnd.end_date = some ⟨2030, 9, 30⟩
    ∧ ¬ ((2030 : Int) ≤ 2025) :=
  ⟨rfl, by decide, by decide⟩

/-- Claim C10: a data point that passes the form and end-date filters but
has no `val` field yields a record with value `0`, identical to the record
produced by the same point reporting `val = 0`; consequently the assembled
statements for the two payloads are identical. -/
theorem missing_val_becomes_zero :
    (∀ (concept best_tag unit_type : String) (cutoff : Int) (p : RawPoint),
       p.val = none →
       pointToRecord concept best_tag unit_type cutoff p
         = pointToRecord concept best_tag unit_type cutoff
             { p with val := some 0 })
    ∧ (∀ (concept best_tag unit_type : String) (cutoff : Int) (p : RawPoint)
        (r : FinancialDataPoint), p.val = none →
        pointToRecord concept best_tag unit_type cutoff p = some r →
        r.value = 0)
    ∧ extract_statements_by_period "1" "A" factsValMissing 2025 10
        = extract_statements_by_period "1" "A" factsValZero 2025 10 := by
  refine ⟨?_, ?_, rfl⟩
  · intro concept best_tag unit_type cutoff p hval
    obtain ⟨v, e, f, fi, fr⟩ := p
    simp only at hval
    subst hval
    rfl
  · intro concept best_tag unit_type cutoff p r hval heq
    unfold pointToRecord at heq
    split at heq
    · exact absurd heq (by simp)
    · split at heq
      · exact absurd heq (by simp)
      · split at heq
        · exact absurd heq (by simp)
        · split at heq
          · exact absurd heq (by simp)
          · simp only [Option.some.injEq] at heq
            subst heq
            simp [hval]

theorem missing_val_becomes_zero_witness :
    rpValMissing.val = none
    ∧ pointToRecord "revenue" "Revenues" "USD" 2015 rpValMissing
        = pointToRecord "revenue" "Revenues" "USD" 2015
            { rpValMissing with val := some 0 }
    ∧ pointToRecord "revenue" "Revenues" "USD" 2015 rpValMissing
        = some { concept := "revenue", gaap_tag := "Revenues", value := 0,
                 unit := "USD", end_date := "2024-09-30", form := "10-K",
                 frame := none, filed_date := some "2024-11-01" } :=
  ⟨rfl, missing_val_becomes_zero.1 "revenue" "Revenues" "USD" 2015
    rpValMissing rfl, rfl⟩

/-- Claim C1 evidence: a statement whose income statement maps `revenue` to
`0.0` projects to the same `revenue` cell (`none`, the missing marker) as a
statement whose mappings contain no `revenue` key at all, because the
`or`-chain in `to_dataframe` treats a stored `0.0` as falsy.  Zero and
absent are therefore not distinguishable in the projected table, contrary
to the claim. -/
theorem zero_and_absent_project_identically :
    stmtRevenueZero.income_statement.lookup "revenue" = some 0
    ∧ stmtRevenueAbsent.income_statement.lookup "revenue" = none
    ∧ conceptCell stmtRevenueZero "revenue" = none
    ∧ conceptCell stmtRevenueZero "revenue"
        = conceptCell stmtRevenueAbsent "revenue"
    ∧ (to_dataframe [stmtRevenueZero, stmtRevenueAbsent]).map
        (fun r => r.cells)
        = [[("revenue", none)], [("revenue", none)]] := by
  refine ⟨by decide, by decide, by decide, by decide, by decide⟩

end FinancialReader
